import Mathlib

/-!
Verification development for the IronShield proof-of-work solving engine.

The definitions below are a shallow embedding of the client-side PoW code:

* `assets/pow_worker.js` — the pure-JavaScript worker search loop
  (`calculatePowSolution`), embedded with an executable SHA-256 over `Nat`
  bytes (JS `crypto.subtle.digest('SHA-256', ...)` on UTF-8 input).
* `assets/worker_pool_manager.js` — the coordinator (`WorkerPoolManager`):
  message handling, worker-error handling, timeout handling and termination,
  modelled as pure transition functions on an explicit pool state.
* `assets/wasm_pow_worker.js` — the per-lane WASM/JS strategy choice.

JS numbers that only ever hold small non-negative integers (nonces, counters,
difficulties) are modelled as `Nat`; JS strings as `String`; a JS function
that can throw as `Except String`.  The `while (true)` search loop is bounded
by its own safety counter (at most 1,000,001 iterations), so it is embedded
structurally with a fuel argument that starts at 1,000,001 and mirrors
`1000001 - attempts`; the fuel-zero branch is unreachable from the real entry
point and carries the same error as the safety check.
-/

/-! ### JS string primitives -/

/-- UTF-8 encoding of one character, as byte values.  Models what
`new TextEncoder().encode(...)` produces per character. -/
def utf8EncodeCharNat (c : Char) : List Nat :=
  let v := c.toNat
  if v < 128 then [v]
  else if v < 2048 then [192 ||| (v >>> 6), 128 ||| (v &&& 63)]
  else if v < 65536 then
    [224 ||| (v >>> 12), 128 ||| ((v >>> 6) &&& 63), 128 ||| (v &&& 63)]
  else
    [240 ||| (v >>> 18), 128 ||| ((v >>> 12) &&& 63), 128 ||| ((v >>> 6) &&& 63),
     128 ||| (v &&& 63)]

/-- UTF-8 bytes of a string: `new TextEncoder().encode(dataToHash)` in the
worker, as `Nat` byte values. -/
def utf8Bytes (s : String) : List Nat :=
  (s.toList.map utf8EncodeCharNat).flatten

/-! ### SHA-256 (FIPS 180-4) over `Nat` bytes

This is the digest the workers obtain from
`crypto.subtle.digest('SHA-256', data)`.  32-bit words are `Nat` values kept
below `2^32` by explicit `% 4294967296`. -/

/-- 32-bit wrapping addition. -/
def add32 (a b : Nat) : Nat := (a + b) % 4294967296

/-- Right rotation of a 32-bit word by `n` bits. -/
def rotr32 (n x : Nat) : Nat := ((x >>> n) ||| (x <<< (32 - n))) % 4294967296

/-- SHA-256 `Ch(x,y,z)`; `~x` is `x XOR 0xffffffff` on 32-bit words. -/
def shaCh (x y z : Nat) : Nat := (x &&& y) ^^^ ((x ^^^ 4294967295) &&& z)

/-- SHA-256 `Maj(x,y,z)`. -/
def shaMaj (x y z : Nat) : Nat := (x &&& y) ^^^ (x &&& z) ^^^ (y &&& z)

/-- SHA-256 `Σ₀`. -/
def bsig0 (x : Nat) : Nat := rotr32 2 x ^^^ rotr32 13 x ^^^ rotr32 22 x
/-- SHA-256 `Σ₁`. -/
def bsig1 (x : Nat) : Nat := rotr32 6 x ^^^ rotr32 11 x ^^^ rotr32 25 x
/-- SHA-256 `σ₀`. -/
def ssig0 (x : Nat) : Nat := rotr32 7 x ^^^ rotr32 18 x ^^^ (x >>> 3)
/-- SHA-256 `σ₁`. -/
def ssig1 (x : Nat) : Nat := rotr32 17 x ^^^ rotr32 19 x ^^^ (x >>> 10)

/-- The eight 32-bit working variables `a..h` of SHA-256. -/
structure SHAState where
  a : Nat
  b : Nat
  c : Nat
  d : Nat
  e : Nat
  f : Nat
  g : Nat
  h : Nat
deriving Repr, DecidableEq

/-- SHA-256 initial hash value `H⁽⁰⁾` (FIPS 180-4 §5.3.3, here in decimal:
0x6a09e667, 0xbb67ae85, 0x3c6ef372, 0xa54ff53a, 0x510e527f, 0x9b05688c,
0x1f83d9ab, 0x5be0cd19). -/
def sha256IV : SHAState :=
  ⟨1779033703, 3144134277, 1013904242, 2773480762,
   1359893119, 2600822924, 528734635, 1541459225⟩

/-- The 64 SHA-256 round constants `K₀..K₆₃` (FIPS 180-4 §4.2.2, in decimal). -/
def sha256K : List Nat :=
  [1116352408, 1899447441, 3049323471, 3921009573, 961987163,
   1508970993, 2453635748, 2870763221, 3624381080, 310598401,
   607225278, 1426881987, 1925078388, 2162078206, 2614888103,
   3248222580, 3835390401, 4022224774, 264347078, 604807628,
   770255983, 1249150122, 1555081692, 1996064986, 2554220882,
   2821834349, 2952996808, 3210313671, 3336571891, 3584528711,
   113926993, 338241895, 666307205, 773529912, 1294757372,
   1396182291, 1695183700, 1986661051, 2177026350, 2456956037,
   2730485921, 2820302411, 3259730800, 3345764771, 3516065817,
   3600352804, 4094571909, 275423344, 430227734, 506948616,
   659060556, 883997877, 958139571, 1322822218, 1537002063,
   1747873779, 1955562222, 2024104815, 2227730452, 2361852424,
   2428436474, 2756734187, 3204031479, 3329325298]

/-- Parse a byte list into big-endian 32-bit words (four bytes per word). -/
def toWords32 : List Nat → List Nat
  | b0 :: b1 :: b2 :: b3 :: rest =>
    (b0 * 16777216 + b1 * 65536 + b2 * 256 + b3) :: toWords32 rest
  | _ => []

/-- Next message-schedule word `W_t = σ₁(W_{t-2}) + W_{t-7} + σ₀(W_{t-15}) + W_{t-16}`. -/
def scheduleNext (w : List Nat) : Nat :=
  let n := w.length
  add32 (add32 (ssig1 (w.getD (n - 2) 0)) (w.getD (n - 7) 0))
        (add32 (ssig0 (w.getD (n - 15) 0)) (w.getD (n - 16) 0))

/-- Extend the 16-word message schedule by `k` further words. -/
def scheduleExtend : Nat → List Nat → List Nat
  | 0, w => w
  | k + 1, w => scheduleExtend k (w ++ [scheduleNext w])

/-- One SHA-256 compression round; `wk = (W_t, K_t)`. -/
def roundStep (st : SHAState) (wk : Nat × Nat) : SHAState :=
  let t1 := add32 st.h (add32 (bsig1 st.e) (add32 (shaCh st.e st.f st.g) (add32 wk.2 wk.1)))
  let t2 := add32 (bsig0 st.a) (shaMaj st.a st.b st.c)
  ⟨add32 t1 t2, st.a, st.b, st.c, add32 st.d t1, st.e, st.f, st.g⟩

/-- SHA-256 compression of one 64-byte block. -/
def compressBlock (st : SHAState) (block : List Nat) : SHAState :=
  let w := scheduleExtend 48 (toWords32 block)
  let r := (w.zip sha256K).foldl roundStep st
  ⟨add32 st.a r.a, add32 st.b r.b, add32 st.c r.c, add32 st.d r.d,
   add32 st.e r.e, add32 st.f r.f, add32 st.g r.g, add32 st.h r.h⟩

/-- Big-endian 8-byte serialization of a 64-bit length field. -/
def be64 (n : Nat) : List Nat :=
  [(n >>> 56) % 256, (n >>> 48) % 256, (n >>> 40) % 256, (n >>> 32) % 256,
   (n >>> 24) % 256, (n >>> 16) % 256, (n >>> 8) % 256, n % 256]

/-- Big-endian 4-byte serialization of a 32-bit word. -/
def be32 (n : Nat) : List Nat :=
  [(n >>> 24) % 256, (n >>> 16) % 256, (n >>> 8) % 256, n % 256]

/-- SHA-256 padding: append `0x80`, zero bytes to 56 mod 64, then the
big-endian 64-bit bit length. -/
def shaPad (msg : List Nat) : List Nat :=
  let len := msg.length
  let zeros := (56 + 64 - (len + 1) % 64) % 64
  msg ++ [128] ++ List.replicate zeros 0 ++ be64 (8 * len)

/-- Split a padded message into 64-byte blocks (fuel-bounded; the fuel is the
list length, which always suffices). -/
def toBlocksAux : Nat → List Nat → List (List Nat)
  | 0, _ => []
  | _, [] => []
  | fuel + 1, l => l.take 64 :: toBlocksAux fuel (l.drop 64)

/-- SHA-256 digest of a byte sequence, as 32 `Nat` bytes. -/
def sha256Bytes (msg : List Nat) : List Nat :=
  let padded := shaPad msg
  let final := (toBlocksAux padded.length padded).foldl compressBlock sha256IV
  be32 final.a ++ be32 final.b ++ be32 final.c ++ be32 final.d ++
  be32 final.e ++ be32 final.f ++ be32 final.g ++ be32 final.h

/-- Lowercase hex digit, as in JS `b.toString(16)`. -/
def hexChar (n : Nat) : Char := Char.ofNat (if n < 10 then 48 + n else 87 + n)

/-- Two lowercase hex digits of a byte: `b.toString(16).padStart(2, '0')`. -/
def byteToHex (b : Nat) : String := String.mk [hexChar (b / 16), hexChar (b % 16)]

/-- `hashArray.map(b => b.toString(16).padStart(2, '0')).join('')`. -/
def bytesToHex (bs : List Nat) : String := String.join (bs.map byteToHex)

/-- The worker digest pipeline: UTF-8 encode, SHA-256, lowercase hex. -/
def sha256hex (s : String) : String := bytesToHex (sha256Bytes (utf8Bytes s))

/-! ### `assets/pow_worker.js` — the worker search loop -/

/-- The object returned by `calculatePowSolution` on success.  `hash_head` is
the source's `hash_prefix` field (`hash.substring(0, 10)`), renamed here. -/
structure Solution where
  nonce_str : String
  hash : String
  hash_head : String
  attempts : Nat
deriving Repr, DecidableEq

/-- `const targetPrefix = "0".repeat(difficulty)`. -/
def targetStr (difficulty : Nat) : String := String.mk (List.replicate difficulty '0')

/-- JS `s.startsWith(pre)`: `pre` is a prefix of `s` (character-wise). -/
def jsStartsWith (s pre : String) : Bool := pre.toList.isPrefixOf s.toList

/-- The body of the worker's `while (true)` loop.  The loop can run at most
1,000,001 iterations before the safety check `attempts > 1000000` throws, so
it is embedded with a `fuel` argument kept equal to `1000001 - attempts`; the
fuel-zero branch is unreachable from `calculatePowSolution` and carries the
same exhaustion error.  The periodic `progress` messages and the
`lastReportedAttempts` bookkeeping do not affect the returned value and are
omitted. -/
def searchLoop (challenge : String) (difficulty : Nat) (workerId : Nat) (nonceStep : Nat) :
    Nat → Nat → Nat → Except String Solution
  | 0, _, _ =>
    Except.error ("Worker #" ++ Nat.repr workerId ++ " could not find solution within attempt limit")
  | fuel + 1, nonce, attempts =>
    let hash := sha256hex (challenge ++ ":" ++ Nat.repr nonce)
    if jsStartsWith hash (targetStr difficulty) then
      Except.ok { nonce_str := Nat.repr nonce, hash := hash,
                  hash_head := String.mk (hash.toList.take 10), attempts := attempts }
    else if attempts + 1 > 1000000 then
      Except.error ("Worker #" ++ Nat.repr workerId ++ " could not find solution within attempt limit")
    else
      searchLoop challenge difficulty workerId nonceStep fuel (nonce + nonceStep) (attempts + 1)

/-- `calculatePowSolution(challenge, difficulty, workerId, startNonce, nonceStep)`:
start the loop at `nonce = startNonce`, `attempts = 0`. -/
def calculatePowSolution (challenge : String) (difficulty workerId startNonce nonceStep : Nat) :
    Except String Solution :=
  searchLoop challenge difficulty workerId nonceStep 1000001 startNonce 0

/-- Number of digests (`crypto.subtle.digest` calls) the loop performs from a
given loop state: one per iteration, mirroring `searchLoop` branch for
branch. -/
def digestLoop (challenge : String) (difficulty : Nat) (nonceStep : Nat) : Nat → Nat → Nat → Nat
  | 0, _, _ => 0
  | fuel + 1, nonce, attempts =>
    let hash := sha256hex (challenge ++ ":" ++ Nat.repr nonce)
    if jsStartsWith hash (targetStr difficulty) then 1
    else if attempts + 1 > 1000000 then 1
    else 1 + digestLoop challenge difficulty nonceStep fuel (nonce + nonceStep) (attempts + 1)

/-- Number of digests a full `calculatePowSolution` run performs. -/
def digestCount (challenge : String) (difficulty startNonce nonceStep : Nat) : Nat :=
  digestLoop challenge difficulty nonceStep 1000001 startNonce 0

/-! ### Search-loop lemmas -/

/-- What a successful return of the search loop guarantees, relative to the
loop state it was entered with: the hash field is the digest of
`challenge ++ ":" ++ nonce_str`, it passes the difficulty check, and the
returned nonce/attempts/digest-count are related by the stride pattern. -/
theorem searchLoop_ok_spec (c : String) (d wid step : Nat) :
    ∀ fuel nonce attempts sol,
      searchLoop c d wid step fuel nonce attempts = Except.ok sol →
      sol.hash = sha256hex (c ++ ":" ++ sol.nonce_str) ∧
      jsStartsWith sol.hash (targetStr d) = true ∧
      ∃ k, sol.attempts = attempts + k ∧ sol.nonce_str = Nat.repr (nonce + k * step) ∧
        digestLoop c d step fuel nonce attempts = k + 1 := by
  intro fuel
  induction fuel with
  | zero =>
    intro nonce attempts sol h
    simp [searchLoop] at h
  | succ fuel ih =>
    intro nonce attempts sol h
    simp only [searchLoop] at h
    by_cases hc : jsStartsWith (sha256hex (c ++ ":" ++ Nat.repr nonce)) (targetStr d) = true
    · rw [if_pos hc] at h
      injection h with h
      subst h
      refine ⟨rfl, hc, 0, by simp, by simp, ?_⟩
      simp [digestLoop, hc]
    · rw [if_neg hc] at h
      by_cases hl : attempts + 1 > 1000000
      · rw [if_pos hl] at h
        exact absurd h (by simp)
      · rw [if_neg hl] at h
        obtain ⟨h1, h2, k, hk1, hk2, hk3⟩ := ih (nonce + step) (attempts + 1) sol h
        refine ⟨h1, h2, k + 1, by omega, ?_, ?_⟩
        · rw [hk2]; congr 1; ring
        · simp only [digestLoop, if_neg hc, if_neg hl]
          omega

/-- The loop performs at most `fuel` digests. -/
theorem digestLoop_le (c : String) (d step : Nat) :
    ∀ fuel nonce attempts, digestLoop c d step fuel nonce attempts ≤ fuel := by
  intro fuel
  induction fuel with
  | zero => intro nonce attempts; simp [digestLoop]
  | succ fuel ih =>
    intro nonce attempts
    simp only [digestLoop]
    split
    · omega
    · split
      · omega
      · have := ih (nonce + step) (attempts + 1)
        omega

/-- Difficulty 0 makes the target the empty string, which is a prefix of
every hash. -/
theorem jsStartsWith_target_zero (s : String) : jsStartsWith s (targetStr 0) = true := by
  simp [jsStartsWith, targetStr, String.toList]

/-- One-step unfolding of the search loop at positive fuel. -/
theorem searchLoop_succ (c : String) (d wid step fuel nonce attempts : Nat) :
    searchLoop c d wid step (fuel + 1) nonce attempts =
      (let hash := sha256hex (c ++ ":" ++ Nat.repr nonce)
       if jsStartsWith hash (targetStr d) then
         Except.ok { nonce_str := Nat.repr nonce, hash := hash,
                     hash_head := String.mk (hash.toList.take 10), attempts := attempts }
       else if attempts + 1 > 1000000 then
         Except.error ("Worker #" ++ Nat.repr wid ++ " could not find solution within attempt limit")
       else
         searchLoop c d wid step fuel (nonce + step) (attempts + 1)) := rfl

/-! ### Claims about the worker search function -/

/-- Claim C1: any solution returned by `calculatePowSolution(c, d, workerId,
startNonce, nonceStep)` with difficulty `d ≥ 1` has its `hash` field equal to
the lowercase hex SHA-256 of the UTF-8 bytes of `c ++ ":" ++` the decimal
string of the nonce, and the first `d` hex digits of that hash are all
`'0'`. -/
theorem c1_solution_hash_meets_difficulty (c : String) (d wid start step : Nat)
    (sol : Solution) (hd : 1 ≤ d)
    (h : calculatePowSolution c d wid start step = Except.ok sol) :
    sol.hash = sha256hex (c ++ ":" ++ sol.nonce_str) ∧
    sol.hash.toList.take d = List.replicate d '0' := by
  obtain ⟨h1, h2, -⟩ := searchLoop_ok_spec c d wid step 1000001 start 0 sol h
  refine ⟨h1, ?_⟩
  unfold jsStartsWith at h2
  rw [List.isPrefixOf_iff_prefix] at h2
  have h3 := List.prefix_iff_eq_take.mp h2
  have h4 : (targetStr d).toList = List.replicate d '0' := rfl
  rw [h4] at h3
  simpa using h3.symm

/-- The concrete solution that worker search finds for challenge `"a"`,
difficulty 1, startNonce 0, nonceStep 1 (nonce 0 already qualifies). -/
def c1Sol : Solution :=
  { nonce_str := "0",
    hash := "0ed32d3352f0cddd88b03a266c387e1a4683d5356ce381463b4b42cf9ccadfaf",
    hash_head := "0ed32d3352", attempts := 0 }

set_option maxRecDepth 10000 in
/-- Witness for C1 at challenge `"a"`, difficulty 1. -/
theorem c1_witness :
    (1 ≤ 1 ∧ calculatePowSolution "a" 1 0 0 1 = Except.ok c1Sol) ∧
    (c1Sol.hash = sha256hex ("a" ++ ":" ++ c1Sol.nonce_str) ∧
     c1Sol.hash.toList.take 1 = List.replicate 1 '0') :=
  ⟨⟨Nat.le_refl 1, rfl⟩, c1_solution_hash_meets_difficulty "a" 1 0 0 1 c1Sol (Nat.le_refl 1) rfl⟩

/-- Claim C4: every run of the worker search function terminates — it either
returns a solution (whose failed-attempt counter never exceeds the 1,000,000
safety ceiling) or throws the exhaustion error — and no single run performs
more than 1,000,001 digest computations. -/
theorem c4_search_terminates (c : String) (d wid start step : Nat) :
    ((∃ sol, calculatePowSolution c d wid start step = Except.ok sol ∧ sol.attempts ≤ 1000000) ∨
      (∃ msg, calculatePowSolution c d wid start step = Except.error msg)) ∧
    digestCount c d start step ≤ 1000001 := by
  constructor
  · cases h : calculatePowSolution c d wid start step with
    | ok sol =>
      left
      refine ⟨sol, rfl, ?_⟩
      obtain ⟨-, -, k, hk1, -, hk3⟩ := searchLoop_ok_spec c d wid step 1000001 start 0 sol h
      have hb := digestLoop_le c d step 1000001 start 0
      omega
    | error msg => exact Or.inr ⟨msg, rfl⟩
  · exact digestLoop_le c d step 1000001 start 0

/-- The concrete solution returned for challenge `"abc"`, difficulty 0,
startNonce 5, nonceStep 3: the very first digest qualifies. -/
def c8Sol : Solution :=
  { nonce_str := "5",
    hash := "c74bbe8b235bac11ae70a1d356fc4a6ca158468fb2d03440ef6e2cc8cedb05a3",
    hash_head := "c74bbe8b23", attempts := 0 }

set_option maxRecDepth 10000 in
/-- Counterexample to claim C8 as stated: at challenge `"abc"`, difficulty 0,
startNonce 5, nonceStep 3, the returned `attempts` field is 0 while the
finding worker performed 1 digest computation — `attempts` does NOT include
the successful digest. -/
theorem c8_counterexample :
    calculatePowSolution "abc" 0 0 5 3 = Except.ok c8Sol ∧
    digestCount "abc" 0 5 3 = 1 ∧
    c8Sol.attempts ≠ digestCount "abc" 0 5 3 := by
  refine ⟨rfl, rfl, ?_⟩
  intro hcon
  rw [show digestCount "abc" 0 5 3 = 1 from rfl] at hcon
  exact absurd hcon (by decide)

/-- Claim C8, amended: the `attempts` field of a returned solution counts the
failed digest computations before the successful one (so the worker performed
`attempts + 1` digests in total), and the solution's nonce satisfies
`nonce = startNonce + attempts * nonceStep`. -/
theorem c8_attempts_relation (c : String) (d wid start step : Nat) (sol : Solution)
    (h : calculatePowSolution c d wid start step = Except.ok sol) :
    sol.nonce_str = Nat.repr (start + sol.attempts * step) ∧
    digestCount c d start step = sol.attempts + 1 := by
  obtain ⟨-, -, k, hk1, hk2, hk3⟩ := searchLoop_ok_spec c d wid step 1000001 start 0 sol h
  have ha : sol.attempts = k := by omega
  constructor
  · rw [hk2, ha]
  · unfold digestCount
    rw [hk3, ha]

set_option maxRecDepth 10000 in
/-- Witness for the amended C8 at challenge `"abc"`, difficulty 0,
startNonce 5, nonceStep 3. -/
theorem c8_witness :
    calculatePowSolution "abc" 0 0 5 3 = Except.ok c8Sol ∧
    (c8Sol.nonce_str = Nat.repr (5 + c8Sol.attempts * 3) ∧
     digestCount "abc" 0 5 3 = c8Sol.attempts + 1) :=
  ⟨rfl, c8_attempts_relation "abc" 0 0 5 3 c8Sol rfl⟩

set_option maxRecDepth 10000 in
/-- Claim C10: with difficulty 0 the target is empty, every digest
satisfies it, and the worker returns immediately on the first iteration with
`nonce = startNonce` and `attempts = 0` — a trivial solution, not an
error. -/
theorem c10_difficulty_zero_trivial (c : String) (wid start step : Nat) :
    calculatePowSolution c 0 wid start step =
      Except.ok { nonce_str := Nat.repr start,
                  hash := sha256hex (c ++ ":" ++ Nat.repr start),
                  hash_head := String.mk ((sha256hex (c ++ ":" ++ Nat.repr start)).toList.take 10),
                  attempts := 0 } := by
  show searchLoop c 0 wid step (1000000 + 1) start 0 = _
  rw [searchLoop_succ]
  simp [jsStartsWith_target_zero]

/-! ### `assets/worker_pool_manager.js` — the coordinator

The `WorkerPoolManager` instance fields touched by `solve`,
`_handleWorkerMessage`, `_handleWorkerError`, the timeout callback and
`terminate` are modelled as an explicit state.  The promise created by
`solve` is modelled by `resolved`/`rejected` slots with standard promise
semantics (the first settlement wins; later `resolve`/`reject` calls are
no-ops).  `workers` is the length of the `this.workers` array;
`solveMsgsPosted` counts `postMessage({type:'solve',...})` calls, which the
JS source performs once per live worker when the last lane reports
`init_complete`. -/
structure PoolState where
  numCores : Nat
  workers : Nat
  solutionFound : Bool
  workersInitialized : Nat
  totalAttempts : Nat
  isWasmAvailable : Bool
  isWasmThreaded : Bool
  resolved : Option Solution
  rejected : Option String
  solveMsgsPosted : Nat
  timeoutCleared : Bool
deriving Repr, DecidableEq

/-- The pool state right after `solve` created and initialized `n` workers:
counters reset, `n` live workers, promise pending. -/
def initPool (n : Nat) : PoolState :=
  { numCores := n, workers := n, solutionFound := false, workersInitialized := 0,
    totalAttempts := 0, isWasmAvailable := false, isWasmThreaded := false,
    resolved := none, rejected := none, solveMsgsPosted := 0, timeoutCleared := false }

/-- `terminate()`: terminate every worker, empty `this.workers`, clear the
timeout handle. -/
def terminatePool (s : PoolState) : PoolState :=
  { s with workers := 0, timeoutCleared := true }

/-- `resolvePromise(sol)` under promise semantics: records the solution only
if the promise is still pending. -/
def resolveP (s : PoolState) (sol : Solution) : PoolState :=
  if s.resolved = none ∧ s.rejected = none then { s with resolved := some sol } else s

/-- `rejectPromise(new Error(msg))` under promise semantics: records the
message only if the promise is still pending. -/
def rejectP (s : PoolState) (msg : String) : PoolState :=
  if s.resolved = none ∧ s.rejected = none then { s with rejected := some msg } else s

/-- A message a worker posts to the coordinator.  Fields used only for
`console.log` (worker ids, time taken, the nonce in progress reports) are
omitted.  `errorMsg` is the worker-posted `{type: "error", message}` message
(`pow_worker.js` / `wasm_pow_worker.js` catch blocks), which
`_handleWorkerMessage` has no case for. -/
inductive WorkerMsg where
  | initComplete (useWasm : Bool) (wasmThreaded : Bool)
  | success (solution : Solution)
  | progress (attempts : Nat)
  | finalProgress (attempts : Nat)
  | hashingStarted
  | errorMsg (message : String)
deriving Repr, DecidableEq

/-- `_handleWorkerMessage(event)`, branch for branch.  The `errorMsg` case is
the `default:` branch of the `switch` (a `console.warn` only).  On `success`
the JS attaches the WASM-usage flags to the solution for metrics and resolves
with it; the flags are dropped here. -/
def handleWorkerMessage (s : PoolState) (m : WorkerMsg) : PoolState :=
  if s.solutionFound then s
  else
    match m with
    | .initComplete useWasm wasmThreaded =>
      let s1 := { s with workersInitialized := s.workersInitialized + 1 }
      let s2 := if useWasm then
                  { s1 with isWasmAvailable := true, isWasmThreaded := wasmThreaded }
                else s1
      if s2.workersInitialized = s2.numCores then
        { s2 with solveMsgsPosted := s2.solveMsgsPosted + s2.workers }
      else s2
    | .success sol =>
      let s1 := { s with solutionFound := true }
      resolveP (terminatePool s1) sol
    | .progress attempts => { s with totalAttempts := s.totalAttempts + attempts }
    | .finalProgress _ => s
    | .hashingStarted => s
    | .errorMsg _ => s

/-- `_handleWorkerError(event, workerIndex, failedWorkerCount)`: rejects with
the all-workers-failed error once the count of `worker.onerror` firings
reaches `numCores`; otherwise only logs. -/
def handleWorkerError (s : PoolState) (failedWorkerCount : Nat) (message : String) : PoolState :=
  if s.solutionFound then s
  else if s.numCores ≤ failedWorkerCount then
    rejectP (terminatePool s) ("All PoW workers failed. Last error: " ++ message)
  else s

/-- The `setTimeout` callback armed by `solve`: if no solution was found when
the wall-clock deadline fires, terminate all lanes and reject with the
timeout error. -/
def handleTimeout (s : PoolState) : PoolState :=
  if s.solutionFound then s
  else rejectP (terminatePool s) "Timeout: PoW calculation took too long"

/-- An event delivered to the coordinator: a worker-posted message, a
`worker.onerror` firing (which increments the solve-local `failedWorkers`
counter via `++failedWorkers` before the handler runs), or the timeout
callback. -/
inductive PoolEvent where
  | msg (m : WorkerMsg)
  | workerError (message : String)
  | timeout
deriving Repr, DecidableEq

/-- The coordinator state together with the `failedWorkers` local of
`solve`. -/
structure SolveState where
  pool : PoolState
  failedWorkers : Nat
deriving Repr, DecidableEq

/-- State right after `solve(challenge, difficulty, timeoutSeconds)` set up
`n` workers. -/
def solveStart (n : Nat) : SolveState := { pool := initPool n, failedWorkers := 0 }

/-- Deliver one event to the coordinator. -/
def stepEvent (s : SolveState) (e : PoolEvent) : SolveState :=
  match e with
  | .msg m => { s with pool := handleWorkerMessage s.pool m }
  | .workerError message =>
    { pool := handleWorkerError s.pool (s.failedWorkers + 1) message,
      failedWorkers := s.failedWorkers + 1 }
  | .timeout => { s with pool := handleTimeout s.pool }

/-- Deliver a sequence of events in order. -/
def runEvents (s : SolveState) (es : List PoolEvent) : SolveState := es.foldl stepEvent s

/-! ### Dispatch: nonce-space partition (worker_pool_manager.js lines 141-153) -/

/-- The assignment the coordinator posts to worker `i` in the `solve`
broadcast: `startNonce: i` and `nonceStep: this.numCores`, as a
`(startNonce, nonceStep)` pair. -/
def workerAssignment (numCores i : Nat) : Nat × Nat := (i, numCores)

/-- The nonce a worker with assignment `a` tests on its `k`-th digest:
starting at `startNonce` and advancing by `nonce += nonceStep`
(pow_worker.js line 89). -/
def laneNonce (a : Nat × Nat) (k : Nat) : Nat := a.1 + k * a.2

/-! ### `assets/wasm_pow_worker.js` — per-lane execution strategy -/

/-- `if useWasm then baseUrl + "/wasm_pow_worker.js" else workerScriptPath`:
the script-path choice made once in the `WorkerPoolManager` constructor. -/
def workerScriptPathChoice (useWasm : Bool) (baseUrl workerScriptPathArg : String) : String :=
  if useWasm then baseUrl ++ "/wasm_pow_worker.js" else workerScriptPathArg

/-- The `for` loop in `solve` creates each of the `n` workers from
`this.workerScriptPath`, the single path chosen by the constructor. -/
def lanePaths (workerScriptPath : String) (n : Nat) : List String :=
  (List.range n).map (fun _ => workerScriptPath)

/-- The execution strategy a lane actually runs. -/
inductive ExecStrategy where
  | wasmThreadedStrat
  | wasmStrat
  | jsStrat
deriving Repr, DecidableEq

/-- The strategy one lane of `wasm_pow_worker.js` runs for a `solve` message,
from the lane-local flags: `useWasm` (did this worker's own
`loadWasmModule()` succeed at init), `wasmThreaded` and `threadsSupported`
(`wasmModule.are_threads_supported()`), and whether the chosen WASM call
throws at run time (`wasmExecFails`, the `catch (wasmError)` that falls back
to `calculatePowSolution`). -/
def laneStrategy (useWasm wasmThreaded threadsSupported wasmExecFails : Bool) : ExecStrategy :=
  if useWasm then
    if wasmThreaded && threadsSupported then
      if wasmExecFails then ExecStrategy.jsStrat else ExecStrategy.wasmThreadedStrat
    else
      if wasmExecFails then ExecStrategy.jsStrat else ExecStrategy.wasmStrat
  else ExecStrategy.jsStrat

/-! ### Claim C2: the stride assignments partition the nonce space -/

/-- Claim C2: for every worker count `N ≥ 1` and any bound `M`, every
`m < M` lies on exactly one worker's nonce sequence
`{i + k * N : k ∈ ℕ}` — the dispatched assignments cover the non-negative
integers with no overlap and no gap. -/
theorem c2_assignments_partition (N M m : Nat) (hN : 1 ≤ N) (hm : m < M) :
    ∃! i, i < N ∧ ∃ k, laneNonce (workerAssignment N i) k = m := by
  refine ⟨m % N, ⟨Nat.mod_lt m (by omega), m / N, ?_⟩, ?_⟩
  · show m % N + m / N * N = m
    exact Nat.mod_add_div' m N
  · rintro j ⟨hj, k, hk⟩
    have hkj : j + k * N = m := hk
    have : m % N = j := by
      rw [← hkj, Nat.add_mul_mod_self_right, Nat.mod_eq_of_lt hj]
    omega

/-- Witness for C2 at `N = 4`, `M = 10`, `m = 7`. -/
theorem c2_witness :
    (1 ≤ 4 ∧ 7 < 10) ∧ ∃! i, i < 4 ∧ ∃ k, laneNonce (workerAssignment 4 i) k = 7 :=
  ⟨⟨by omega, by omega⟩, c2_assignments_partition 4 10 7 (by omega) (by omega)⟩

/-! ### Claim C3: failure aggregation -/

/-- Counterexample to claim C3 as stated: a lane failure reported through the
worker's POSTED error message (`postMessage({type:"error",...})`) does not
count toward the all-lanes-failed aggregation — `_handleWorkerMessage` has no
`"error"` case, so the message falls into the logging-only `default:` branch
and the state is completely unchanged.  With a single lane (`N = 1`), the
lane's posted error should by the claim reject the solve with the
all-lanes-failed error, but the promise stays pending. -/
theorem c3_counterexample :
    runEvents (solveStart 1) [PoolEvent.msg (WorkerMsg.errorMsg "boom")] = solveStart 1 ∧
    (runEvents (solveStart 1) [PoolEvent.msg (WorkerMsg.errorMsg "boom")]).pool.rejected = none :=
  ⟨rfl, rfl⟩

/-- Processing fewer `worker.onerror` events than lanes leaves the
just-initialized pool untouched (only the solve-local counter advances). -/
theorem runEvents_onerror_below (N : Nat) (msg : String) :
    ∀ k f, f + k < N →
      runEvents ⟨initPool N, f⟩ (List.replicate k (PoolEvent.workerError msg)) =
        ⟨initPool N, f + k⟩ := by
  intro k
  induction k with
  | zero => intro f h; simp [runEvents]
  | succ k ih =>
    intro f h
    rw [List.replicate_succ]
    have hne : ¬ (N ≤ f + 1) := by omega
    have hstep : stepEvent ⟨initPool N, f⟩ (PoolEvent.workerError msg) = ⟨initPool N, f + 1⟩ := by
      simp [stepEvent, handleWorkerError, initPool, hne]
    show runEvents (stepEvent ⟨initPool N, f⟩ (PoolEvent.workerError msg)) _ = _
    rw [hstep]
    have := ih (f + 1) (by omega)
    rw [this]
    congr 1
    omega

/-- Claim C3, amended: a lane failure counts toward the all-lanes-failed
aggregation only when it is reported through the `worker.onerror` event
channel; when all `N` such events fire the solve is rejected with the
all-workers-failed error, and a single `onerror` firing while other lanes
remain does not reject.  Worker-POSTED `{type:"error"}` messages are ignored
by the coordinator (unknown message type) and never count. -/
theorem c3_all_onerror_failures_reject (N : Nat) (m1 m2 : String) (hN : 1 ≤ N) :
    (runEvents (solveStart N) (List.replicate N (PoolEvent.workerError m1))).pool.rejected
        = some ("All PoW workers failed. Last error: " ++ m1) ∧
    (2 ≤ N →
      (runEvents (solveStart N) [PoolEvent.workerError m2]).pool.rejected = none ∧
      (runEvents (solveStart N) [PoolEvent.workerError m2]).pool.resolved = none) := by
  constructor
  · obtain ⟨N', rfl⟩ : ∃ n, N = n + 1 := ⟨N - 1, by omega⟩
    rw [List.replicate_succ']
    have h1 : runEvents (solveStart (N' + 1))
        (List.replicate N' (PoolEvent.workerError m1)) = ⟨initPool (N' + 1), N'⟩ := by
      have := runEvents_onerror_below (N' + 1) m1 N' 0 (by omega)
      simpa [solveStart] using this
    rw [show runEvents (solveStart (N' + 1))
          (List.replicate N' (PoolEvent.workerError m1) ++ [PoolEvent.workerError m1]) =
        runEvents (runEvents (solveStart (N' + 1))
          (List.replicate N' (PoolEvent.workerError m1))) [PoolEvent.workerError m1] from by
      simp [runEvents, List.foldl_append]]
    rw [h1]
    simp [runEvents, stepEvent, handleWorkerError, initPool, rejectP, terminatePool]
  · intro h2
    have hne : ¬ (N ≤ 1) := by omega
    constructor <;>
      simp [runEvents, solveStart, stepEvent, handleWorkerError, initPool, hne]

/-- Witness for the amended C3 at `N = 2`. -/
theorem c3_witness :
    (1 ≤ 2 ∧ 2 ≤ 2) ∧
    ((runEvents (solveStart 2) (List.replicate 2 (PoolEvent.workerError "boom"))).pool.rejected
        = some ("All PoW workers failed. Last error: " ++ "boom") ∧
     (runEvents (solveStart 2) [PoolEvent.workerError "late"]).pool.rejected = none ∧
     (runEvents (solveStart 2) [PoolEvent.workerError "late"]).pool.resolved = none) :=
  ⟨⟨by omega, by omega⟩,
   (c3_all_onerror_failures_reject 2 "boom" "late" (by omega)).1,
   ((c3_all_onerror_failures_reject 2 "boom" "late" (by omega)).2 (by omega)).1,
   ((c3_all_onerror_failures_reject 2 "boom" "late" (by omega)).2 (by omega)).2⟩

/-! ### Claim C5: single-winner race -/

/-- Claim C5: processing a `success` message on a pending solve sets the
`solutionFound` guard and resolves the promise with that solution; from then
on every later worker message — duplicate or late success, progress, final
progress, hashing-started or posted error — is discarded without any effect
on the state, so the promise resolves at most once and the aggregate attempt
counter never changes after resolution. -/
theorem c5_first_success_wins (s : PoolState) (sol : Solution) (m : WorkerMsg)
    (h : s.solutionFound = false) (hr : s.resolved = none) (hj : s.rejected = none) :
    (handleWorkerMessage s (WorkerMsg.success sol)).solutionFound = true ∧
    (handleWorkerMessage s (WorkerMsg.success sol)).resolved = some sol ∧
    handleWorkerMessage (handleWorkerMessage s (WorkerMsg.success sol)) m
      = handleWorkerMessage s (WorkerMsg.success sol) ∧
    (handleWorkerMessage (handleWorkerMessage s (WorkerMsg.success sol)) m).totalAttempts
      = (handleWorkerMessage s (WorkerMsg.success sol)).totalAttempts := by
  have hx : handleWorkerMessage s (WorkerMsg.success sol)
      = { s with solutionFound := true, workers := 0, timeoutCleared := true,
                 resolved := some sol } := by
    simp [handleWorkerMessage, h, resolveP, terminatePool, hr, hj]
  have hguard : handleWorkerMessage (handleWorkerMessage s (WorkerMsg.success sol)) m
      = handleWorkerMessage s (WorkerMsg.success sol) := by
    rw [hx]
    simp [handleWorkerMessage]
  refine ⟨?_, ?_, hguard, ?_⟩
  · rw [hx]
  · rw [hx]
  · rw [hguard]

/-- A concrete solution value used to exercise the coordinator model. -/
def demoSol : Solution :=
  { nonce_str := "42", hash := "00abc", hash_head := "00abc", attempts := 7 }

/-- Witness for C5: a pending 2-worker pool that receives a success and then
a late progress message. -/
theorem c5_witness :
    ((initPool 2).solutionFound = false ∧ (initPool 2).resolved = none ∧
     (initPool 2).rejected = none) ∧
    ((handleWorkerMessage (initPool 2) (WorkerMsg.success demoSol)).solutionFound = true ∧
     (handleWorkerMessage (initPool 2) (WorkerMsg.success demoSol)).resolved = some demoSol ∧
     handleWorkerMessage (handleWorkerMessage (initPool 2) (WorkerMsg.success demoSol))
         (WorkerMsg.progress 1000)
       = handleWorkerMessage (initPool 2) (WorkerMsg.success demoSol) ∧
     (handleWorkerMessage (handleWorkerMessage (initPool 2) (WorkerMsg.success demoSol))
         (WorkerMsg.progress 1000)).totalAttempts
       = (handleWorkerMessage (initPool 2) (WorkerMsg.success demoSol)).totalAttempts) :=
  ⟨⟨rfl, rfl, rfl⟩,
   c5_first_success_wins (initPool 2) demoSol (WorkerMsg.progress 1000) rfl rfl rfl⟩

/-! ### Claim C6: timeout -/

/-- Claim C6: when the wall-clock deadline fires on a pending solve (no lane
has found a solution), the coordinator terminates every lane (the worker list
is emptied and the timeout handle cleared) and rejects the solve with the
timeout error; if a solution was already found before the deadline fires, the
timeout callback changes nothing and causes no rejection. -/
theorem c6_timeout_behavior (s : PoolState) :
    (s.solutionFound = false → s.resolved = none → s.rejected = none →
      (handleTimeout s).rejected = some "Timeout: PoW calculation took too long" ∧
      (handleTimeout s).workers = 0 ∧ (handleTimeout s).timeoutCleared = true) ∧
    (s.solutionFound = true → handleTimeout s = s) := by
  constructor
  · intro h hr hj
    refine ⟨?_, ?_, ?_⟩ <;> simp [handleTimeout, h, rejectP, terminatePool, hr, hj]
  · intro h
    simp [handleTimeout, h]

/-- Witness for C6: the timeout on a pending 2-worker pool, and on a pool
whose solution was already found. -/
theorem c6_witness :
    ((handleTimeout (initPool 2)).rejected = some "Timeout: PoW calculation took too long" ∧
     (handleTimeout (initPool 2)).workers = 0 ∧
     (handleTimeout (initPool 2)).timeoutCleared = true) ∧
    handleTimeout { initPool 2 with solutionFound := true }
      = { initPool 2 with solutionFound := true } :=
  ⟨(c6_timeout_behavior (initPool 2)).1 rfl rfl rfl,
   (c6_timeout_behavior { initPool 2 with solutionFound := true }).2 rfl⟩

/-! ### Claim C7: execution-strategy selection -/

/-- Counterexample to claim C7 as stated: the WASM-versus-JS execution
strategy is not fixed once before dispatch for all lanes.  Each worker of
`wasm_pow_worker.js` probes WASM for itself at init, so in one solve a lane
whose `loadWasmModule()` succeeded runs the WASM strategy while a lane whose
load failed runs the JS strategy (first inequality); and a lane whose WASM
call throws during the solve falls back to JS at run time, after dispatch
(second inequality). -/
theorem c7_counterexample :
    laneStrategy true false false false ≠ laneStrategy false false false false ∧
    laneStrategy true false false true ≠ laneStrategy true false false false := by
  constructor <;> decide

/-- Claim C7, amended: what is selected exactly once, before dispatch, and
shared by all `N` lanes of a solve is the worker script path — the
constructor picks `baseUrl ++ "/wasm_pow_worker.js"` or the fallback JS
worker path once, and the `solve` loop creates every lane from that single
path.  (The WASM-versus-JS strategy inside that script remains per-lane; see
the counterexample.) -/
theorem c7_single_script_path (u : Bool) (b p : String) (n : Nat) :
    ∀ x ∈ lanePaths (workerScriptPathChoice u b p) n, x = workerScriptPathChoice u b p := by
  intro x hx
  unfold lanePaths at hx
  rw [List.mem_map] at hx
  obtain ⟨i, -, hxi⟩ := hx
  exact hxi.symm

/-- Witness for the amended C7: with WASM preferred, every one of 3 lanes is
created from the single constructor-chosen WASM worker path. -/
theorem c7_witness :
    ("https://x/wasm_pow_worker.js"
        ∈ lanePaths (workerScriptPathChoice true "https://x" "/pow_worker.js") 3) ∧
    "https://x/wasm_pow_worker.js" = workerScriptPathChoice true "https://x" "/pow_worker.js" :=
  ⟨by decide, c7_single_script_path true "https://x" "/pow_worker.js" 3
      "https://x/wasm_pow_worker.js" (by decide)⟩

/-! ### Claim C9: the solve broadcast -/

/-- The coordinator state after `k` `init_complete` messages (all with the
same WASM flags) on a fresh `N`-worker solve. -/
def initPhaseState (N k : Nat) (u t : Bool) : SolveState :=
  { pool := { initPool N with
      workersInitialized := k,
      isWasmAvailable := u && decide (1 ≤ k),
      isWasmThreaded := u && t && decide (1 ≤ k),
      solveMsgsPosted := if N ≤ k then N else 0 },
    failedWorkers := 0 }

/-- One `init_complete` message advances the init-phase state. -/
theorem initPhase_step (N k : Nat) (u t : Bool) :
    stepEvent (initPhaseState N k u t) (PoolEvent.msg (WorkerMsg.initComplete u t))
      = initPhaseState N (k + 1) u t := by
  cases u <;> cases t <;>
    (by_cases hk : k + 1 = N
     · simp [stepEvent, handleWorkerMessage, initPhaseState, initPool, hk]
       omega
     · simp [stepEvent, handleWorkerMessage, initPhaseState, initPool, hk]
       first
       | omega
       | (split <;> omega)
       | (split <;> split <;> omega))

/-- Running `k` `init_complete` messages from any init-phase state. -/
theorem runInit_from (N : Nat) (u t : Bool) :
    ∀ k j, runEvents (initPhaseState N j u t)
        (List.replicate k (PoolEvent.msg (WorkerMsg.initComplete u t)))
      = initPhaseState N (j + k) u t := by
  intro k
  induction k with
  | zero => intro j; simp [runEvents]
  | succ k ih =>
    intro j
    rw [List.replicate_succ]
    show runEvents (stepEvent _ _) _ = _
    rw [initPhase_step, ih (j + 1)]
    congr 1
    omega

/-- A fresh solve is the init-phase state at `k = 0`. -/
theorem solveStart_eq_initPhase (N : Nat) (u t : Bool) :
    solveStart N = initPhaseState N 0 u t := by
  simp [solveStart, initPhaseState, initPool]
  split <;> omega

/-- Claim C9: on an `N`-worker solve receiving only `init_complete`
messages, the coordinator posts the `solve` command exactly at the moment the
`N`-th `init_complete` arrives — `N` messages, one per lane, posted once and
never re-posted — and with fewer than `N` initializations nothing is ever
posted, so no lane begins searching and the promise stays pending (neither
resolved nor rejected). -/
theorem c9_solve_broadcast_once (N k : Nat) (u t : Bool) (hN : 1 ≤ N) :
    (runEvents (solveStart N)
        (List.replicate k (PoolEvent.msg (WorkerMsg.initComplete u t)))).pool.solveMsgsPosted
      = (if N ≤ k then N else 0) ∧
    (runEvents (solveStart N)
        (List.replicate k (PoolEvent.msg (WorkerMsg.initComplete u t)))).pool.resolved = none ∧
    (runEvents (solveStart N)
        (List.replicate k (PoolEvent.msg (WorkerMsg.initComplete u t)))).pool.rejected = none := by
  rw [solveStart_eq_initPhase N u t, runInit_from]
  simp [initPhaseState, initPool]

/-- Witness for C9 at `N = 2`: after both `init_complete` messages the solve
command has been posted to both lanes, and after only one of them nothing is
posted. -/
theorem c9_witness :
    (1 ≤ 2) ∧
    ((runEvents (solveStart 2)
        (List.replicate 2 (PoolEvent.msg (WorkerMsg.initComplete false false)))).pool.solveMsgsPosted
      = (if 2 ≤ 2 then 2 else 0) ∧
     (runEvents (solveStart 2)
        (List.replicate 2 (PoolEvent.msg (WorkerMsg.initComplete false false)))).pool.resolved = none ∧
     (runEvents (solveStart 2)
        (List.replicate 2 (PoolEvent.msg (WorkerMsg.initComplete false false)))).pool.rejected = none) :=
  ⟨by omega, c9_solve_broadcast_once 2 2 false false (by omega)⟩
